import Mathlib

/-!
Verification development for the archivist-desktop core (Rust sources under
src/src-tauri/src).  The data model and operations of the Sync Engine
(services/sync.rs), the Manifest Registry (services/manifest_server.rs),
the Backup Daemon (services/backup_daemon.rs) and the Node API client
(node_api.rs) are shallowly embedded as executable Lean definitions:
HashMaps become association lists, Vec becomes List, timestamps become
Nat tokens, and fallible external calls (node API, filesystem writes)
become injected `Except`/`Bool` parameters so each code path is explicit.
-/

set_option maxHeartbeats 1000000

/- ===================== Association-list helpers =====================
   HashMap<String, V> from the Rust sources is modelled as
   List (String × V); `ainsert` is HashMap::insert (replace by key),
   `alookup` is HashMap::get, `aremove` is HashMap::remove, `aupdate`
   is the get_mut-and-mutate pattern. -/

def alookup {α : Type} : List (String × α) → String → Option α
  | [], _ => none
  | (k', v) :: t, k => if k' = k then some v else alookup t k

def ainsert {α : Type} : List (String × α) → String → α → List (String × α)
  | [], k, v => [(k, v)]
  | (k', v') :: t, k, v =>
      if k' = k then (k, v) :: t else (k', v') :: ainsert t k v

def aremove {α : Type} (l : List (String × α)) (k : String) : List (String × α) :=
  l.filter (fun p => p.1 != k)

def aupdate {α : Type} (l : List (String × α)) (k : String) (f : α → α) :
    List (String × α) :=
  l.map (fun p => if p.1 = k then (p.1, f p.2) else p)

/- ===================== Sync Engine data model (services/sync.rs) ===== -/

/-- services/sync.rs FolderStatus. -/
inductive FolderStatus
  | idle
  | scanning
  | syncing
  | error
  | paused
deriving Repr, DecidableEq

/-- services/sync.rs WatchedFolder (timestamps are abstract Nat tokens). -/
structure WatchedFolder where
  id : String
  path : String
  enabled : Bool
  file_count : Nat
  total_size_bytes : Nat
  last_synced : Option Nat
  status : FolderStatus
  manifest_cid : Option String
  manifest_sequence : Nat
  manifest_updated_at : Option Nat
  backup_synced_at : Option Nat
  backup_ack_received : Bool
  pending_retry : Bool
deriving Repr, DecidableEq

/-- services/sync.rs PendingFile (upload-queue entry). -/
structure PendingFile where
  path : String
  folder_id : String
  added_at : Nat
deriving Repr, DecidableEq

/-- services/sync.rs FileCidMapping. -/
structure FileCidMapping where
  path : String
  cid : String
  size_bytes : Nat
  mime_type : Option String
  uploaded_at : Nat
deriving Repr, DecidableEq

/-- Manifest file entry (identical structs in services/sync.rs and
services/backup_daemon.rs). -/
structure ManifestFileEntry where
  path : String
  cid : String
  size_bytes : Nat
  mime_type : Option String
  uploaded_at : Nat
deriving Repr, DecidableEq

/-- Tombstone entry (ManifestDeletedEntry in both Rust files). -/
structure ManifestDeletedEntry where
  path : String
  cid : String
  deleted_at : Nat
deriving Repr, DecidableEq

/-- services/sync.rs ManifestStats. -/
structure ManifestStats where
  total_files : Nat
  total_size_bytes : Nat
deriving Repr, DecidableEq

/-- ManifestFile JSON structure (identical in sync.rs and backup_daemon.rs). -/
structure ManifestFile where
  version : String
  folder_id : String
  folder_path : String
  source_peer_id : String
  sequence_number : Nat
  last_updated : Nat
  manifest_cid : Option String
  files : List ManifestFileEntry
  deleted_files : List ManifestDeletedEntry
  stats : ManifestStats
deriving Repr, DecidableEq

/-- services/sync.rs SyncService, restricted to the fields the verified
operations touch.  HashMap fields are association lists, Vec and HashSet
are Lists. -/
structure SyncService where
  folders : List (String × WatchedFolder)
  upload_queue : List PendingFile
  recent_uploads : List String
  is_syncing : Bool
  synced_files : List String
  file_cid_mappings : List (String × List FileCidMapping)
  deleted_files : List (String × List ManifestDeletedEntry)
  changes_since_manifest : List (String × Nat)
  manifest_update_threshold : Nat
deriving Repr, DecidableEq

/-- Path::file_name of a slash-separated path string (computed over the
character list so that it evaluates by kernel reduction). -/
def fileNameOf (p : String) : String :=
  String.mk ((p.data.splitOn '/').getLastD [])

/-- Ignore rule in SyncService::queue_file: hidden files, `.tmp`, and
trailing-tilde files are skipped. -/
def isIgnoredFile (filename : String) : Bool :=
  filename.data.take 1 = ['.'] ||
  List.isSuffixOf ".tmp".data filename.data ||
  List.isSuffixOf "~".data filename.data

/-- SyncService::queue_file (sync.rs lines 521-549): dedupe against
synced_files and the queue, apply the ignore rule, push to the back of
the Vec, and flip the folder status Idle → Syncing. -/
def queue_file (s : SyncService) (path : String) (folder_id : String) (now : Nat) :
    SyncService :=
  if s.synced_files.contains path then s
  else if s.upload_queue.any (fun p => p.path = path) then s
  else if isIgnoredFile (fileNameOf path) then s
  else
    { s with
      upload_queue := s.upload_queue ++ [⟨path, folder_id, now⟩],
      folders := aupdate s.folders folder_id
        (fun f => if f.status = FolderStatus.idle
                  then { f with status := FolderStatus.syncing } else f) }

/-- The dequeue step of SyncService::process_queue (sync.rs line 479):
`self.upload_queue.pop()` on a Vec removes the LAST element. -/
def queuePop (q : List PendingFile) : Option (PendingFile × List PendingFile) :=
  match q.getLast? with
  | none => none
  | some f => some (f, q.dropLast)

/-- SyncService::store_cid_mapping (sync.rs lines 560-586): append the new
mapping to the folder's entry (entry().or_default().push) and increment
the folder's change counter. -/
def store_cid_mapping (s : SyncService) (folder_id : String) (path : String)
    (cid : String) (size_bytes : Nat) (mime_type : Option String) (now : Nat) :
    SyncService :=
  let mapping : FileCidMapping :=
    { path := path, cid := cid, size_bytes := size_bytes,
      mime_type := mime_type, uploaded_at := now }
  { s with
    file_cid_mappings := ainsert s.file_cid_mappings folder_id
      ((alookup s.file_cid_mappings folder_id).getD [] ++ [mapping]),
    changes_since_manifest := ainsert s.changes_since_manifest folder_id
      ((alookup s.changes_since_manifest folder_id).getD 0 + 1) }

/-- Number of entries for a given path in a folder's CID mapping. -/
def countPathEntries (l : List FileCidMapping) (p : String) : Nat :=
  (l.filter (fun m => m.path = p)).length

/-- Path::strip_prefix(base).unwrap_or(path) as used when building manifest
entries (string-level approximation of the component-wise Rust call). -/
def relativeTo (base p : String) : String :=
  if p.data.take base.data.length = base.data
  then String.mk (p.data.drop base.data.length) else p

/-- The first-12-characters peer-id shortening in generate_manifest
(`&source_peer_id[..12.min(len)]`). -/
def shortPeerId (s : String) : String := String.mk (s.data.take 12)

/- ===================== Manifest authoring (sync.rs 681-787) =========

   SyncService::generate_manifest mutates `self` in place step by step;
   on an error the mutations performed so far remain.  The embedding
   therefore always returns the (possibly partially mutated) state next
   to the `Except` result.  External effects are injected:
   `peerIdResult` stands for the node get_info call of step 2 and
   `writeOk` for the fs::write of step 7. -/

def generate_manifest (s : SyncService) (folder_id : String)
    (peerIdResult : Except String String) (writeOk : Bool) (now : Nat) :
    SyncService × Except String (ManifestFile × String) :=
  match alookup s.folders folder_id with
  | none => (s, Except.error "Folder not found")
  | some folder =>
    match peerIdResult with
    | Except.error e => (s, Except.error e)
    | Except.ok source_peer_id =>
      let folder1 := { folder with manifest_sequence := folder.manifest_sequence + 1 }
      let s1 := { s with folders := ainsert s.folders folder_id folder1 }
      let sequence_number := folder1.manifest_sequence
      let folder_path := folder1.path
      let mappings := (alookup s1.file_cid_mappings folder_id).getD []
      let deleted := (alookup s1.deleted_files folder_id).getD []
      let manifest : ManifestFile :=
        { version := "1.0",
          folder_id := folder_id,
          folder_path := folder_path,
          source_peer_id := source_peer_id,
          sequence_number := sequence_number,
          last_updated := now,
          manifest_cid := none,
          files := mappings.map (fun m =>
            { path := relativeTo folder_path m.path,
              cid := m.cid,
              size_bytes := m.size_bytes,
              mime_type := m.mime_type,
              uploaded_at := m.uploaded_at }),
          deleted_files := deleted,
          stats := { total_files := mappings.length,
                     total_size_bytes := (mappings.map (fun m => m.size_bytes)).sum } }
      let manifest_path :=
        folder_path ++ "/.archivist-manifest-" ++ shortPeerId source_peer_id ++ ".json"
      if writeOk then
        let s2 := { s1 with
          deleted_files := ainsert s1.deleted_files folder_id [],
          changes_since_manifest := ainsert s1.changes_since_manifest folder_id 0 }
        (s2, Except.ok (manifest, manifest_path))
      else
        (s1, Except.error "Failed to write manifest")

/-- SyncService::upload_manifest (sync.rs 774-787): generate the manifest,
upload the file (injected `uploadResult`), then on success set
manifest_cid, manifest_updated_at, backup_ack_received := false and
pending_retry := true on the folder. -/
def upload_manifest (s : SyncService) (folder_id : String)
    (peerIdResult : Except String String) (writeOk : Bool)
    (uploadResult : Except String String) (now : Nat) :
    SyncService × Except String String :=
  match generate_manifest s folder_id peerIdResult writeOk now with
  | (s1, Except.error e) => (s1, Except.error e)
  | (s1, Except.ok _) =>
    match uploadResult with
    | Except.error e => (s1, Except.error e)
    | Except.ok cid =>
      let s2 :=
        match alookup s1.folders folder_id with
        | none => s1
        | some folder =>
          let folder2 : WatchedFolder :=
            { folder with
              manifest_cid := some cid,
              manifest_updated_at := some now,
              backup_ack_received := false,
              pending_retry := true }
          { s1 with folders := ainsert s1.folders folder_id folder2 }
      (s2, Except.ok cid)

/- ========== Manifest Registry (services/manifest_server.rs) ========== -/

/-- manifest_server.rs ManifestInfo descriptor. -/
structure ManifestInfo where
  folder_id : String
  folder_path : String
  manifest_cid : String
  sequence_number : Nat
  updated_at : String
  file_count : Nat
  total_size_bytes : Nat
deriving Repr, DecidableEq

/-- manifest_server.rs ManifestRegistry. -/
structure ManifestRegistry where
  manifests : List (String × ManifestInfo)
  peer_id : Option String
deriving Repr, DecidableEq

/-- ManifestRegistry::register_manifest (manifest_server.rs 59-67): the
descriptor is inserted under its folder_id with a plain HashMap::insert. -/
def register_manifest (r : ManifestRegistry) (info : ManifestInfo) :
    ManifestRegistry :=
  { r with manifests := ainsert r.manifests info.folder_id info }

/- ========== Upload progress computation (node_api.rs 254-296) ========

   NodeApiClient::upload_file_with_progress computes the percent as
   `(sent as f64 / total as f64 * 100.0) as u64` guarded by `total > 0`,
   and the throttle test as
   `percent > last || sent.saturating_sub(last * total / 100) > 1MB`.
   The floating-point quotient is modelled by flooring Nat division; the
   claim under verification concerns only where a division can occur, so
   a division is wrapped in `checkedDiv`, which is `none` exactly when
   the divisor is zero. -/

def checkedDiv (a b : Nat) : Option Nat :=
  if b = 0 then none else some (a / b)

/-- Percent computation of upload_file_with_progress: divide only when
total > 0, otherwise report 0. -/
def progressPercent (sent total : Nat) : Option Nat :=
  if total > 0 then checkedDiv (sent * 100) total else some 0

/-- Throttle test of upload_file_with_progress; the division
`last * total / 100` has the constant divisor 100, and Nat subtraction is
saturating exactly like u64::saturating_sub. -/
def shouldReport (percent last sent total : Nat) : Option Bool :=
  (checkedDiv (last * total) 100).map
    (fun base => decide (percent > last) || decide (sent - base > 1048576))

/- ========== Backup daemon data model (services/backup_daemon.rs) ===== -/

/-- backup_daemon.rs ProcessedManifest. -/
structure ProcessedManifest where
  manifest_cid : String
  source_peer_id : String
  sequence_number : Nat
  folder_id : String
  processed_at : Nat
  file_count : Nat
  total_size_bytes : Nat
  deleted_count : Nat
deriving Repr, DecidableEq

/-- backup_daemon.rs InProgressManifest. -/
structure InProgressManifest where
  manifest_cid : String
  source_peer_id : String
  sequence_number : Nat
  started_at : Nat
  total_files : Nat
  files_downloaded : Nat
  files_failed : Nat
  current_status : String
deriving Repr, DecidableEq

/-- backup_daemon.rs FailedManifest. -/
structure FailedManifest where
  manifest_cid : String
  source_peer_id : String
  failed_at : Nat
  error_message : String
  retry_count : Nat
deriving Repr, DecidableEq

/-- backup_daemon.rs DaemonStats. -/
structure DaemonStats where
  total_manifests_processed : Nat
  total_files_downloaded : Nat
  total_bytes_downloaded : Nat
  total_files_deleted : Nat
  last_activity_at : Option Nat
deriving Repr, DecidableEq

/-- backup_daemon.rs DaemonState. -/
structure DaemonState where
  processed_manifests : List (String × ProcessedManifest)
  in_progress_manifests : List (String × InProgressManifest)
  failed_manifests : List FailedManifest
  last_poll_time : Nat
  stats : DaemonStats
deriving Repr, DecidableEq

/-- DaemonState::default: all partitions empty. -/
def initialDaemonState : DaemonState :=
  { processed_manifests := [],
    in_progress_manifests := [],
    failed_manifests := [],
    last_poll_time := 0,
    stats := { total_manifests_processed := 0, total_files_downloaded := 0,
               total_bytes_downloaded := 0, total_files_deleted := 0,
               last_activity_at := none } }

/-- backup_daemon.rs DiscoveredManifest. -/
structure DiscoveredManifest where
  cid : String
  folder_id : String
  sequence_number : Nat
  source_peer_id : String
  source_host : String
  multiaddr : Option String
deriving Repr, DecidableEq

/-- BackupDaemon::filter_unprocessed (backup_daemon.rs 428-438): drop a
discovered manifest when its CID is a key of processed_manifests or of
in_progress_manifests; the failed list is not consulted. -/
def filter_unprocessed (st : DaemonState) (manifests : List DiscoveredManifest) :
    List DiscoveredManifest :=
  (manifests.filter (fun m => (alookup st.processed_manifests m.cid).isNone)).filter
    (fun m => (alookup st.in_progress_manifests m.cid).isNone)

/- ========== Daemon state persistence (backup_daemon.rs 264-285) ====== -/

/-- Filesystem operations that BackupDaemon::save_state can perform. -/
inductive FsOp
  | createDirAll (dir : String)
  | writeFile (path : String) (contents : String)
  | rename (src : String) (dst : String)
deriving Repr, DecidableEq

def FsOp.isRenameOp : FsOp → Bool
  | FsOp.rename _ _ => true
  | _ => false

/-- Path::parent of a slash-separated path string. -/
def parentDir (p : String) : Option String :=
  let parts := p.data.splitOn '/'
  if parts.length ≤ 1 then none
  else some (String.mk (List.intercalate ['/'] parts.dropLast))

/-- Stand-in for serde_json::to_string_pretty(&DaemonState): the exact
JSON text is irrelevant to the persistence pattern, so the serializer is
abstracted to a total rendering of the state's summary counts. -/
def serializeDaemonState (st : DaemonState) : String :=
  "processed=" ++ toString st.processed_manifests.length ++
  ";in_progress=" ++ toString st.in_progress_manifests.length ++
  ";failed=" ++ toString st.failed_manifests.length ++
  ";last_poll=" ++ toString st.last_poll_time

/-- BackupDaemon::save_state (backup_daemon.rs 264-285): ensure the parent
directory exists (fs::create_dir_all), then write the pretty JSON with a
single std::fs::write to the state file path itself. -/
def save_state_ops (st : DaemonState) (state_file_path : String) : List FsOp :=
  let dirOps :=
    match parentDir state_file_path with
    | some parent => [FsOp.createDirAll parent]
    | none => []
  dirOps ++ [FsOp.writeFile state_file_path (serializeDaemonState st)]

/- ========== Daemon manifest processing (backup_daemon.rs 441-774) ====

   The node API side effects are injected through a DaemonEnv:
   `localCids` is the content of list_data() used by check_file_exists,
   `fetchFail` the set of CIDs whose network fetch errors, and
   `deleteFail` the set of CIDs whose delete call errors.  Every network
   or delete call the daemon issues is recorded in a DaemonAction trace
   so that claims about which work is performed can be stated. -/

structure DaemonEnv where
  localCids : List String
  fetchFail : List String
  deleteFail : List String
  now : Nat
deriving Repr, DecidableEq

structure DaemonCfg where
  max_concurrent_downloads : Nat
  max_retries : Nat
  auto_delete_tombstones : Bool
deriving Repr, DecidableEq

inductive DaemonAction
  | fetchManifestLocal (cid : String)
  | fetchManifestNetwork (cid : String)
  | fetchFileNetwork (cid : String)
  | deleteFile (cid : String)
  | saveState
deriving Repr, DecidableEq

/-- backup_daemon.rs DownloadResult. -/
structure DownloadResult where
  downloaded : Nat
  failed : Nat
  skipped_existing : Nat
deriving Repr, DecidableEq

/-- backup_daemon.rs DeletionResult. -/
structure DeletionResult where
  deleted : Nat
  failed : Nat
  not_found : Nat
deriving Repr, DecidableEq

/-- The `.max()` scan of BackupDaemon::validate_sequence_number
(backup_daemon.rs 520-548): highest sequence among processed manifests
from the same source peer and folder. -/
def lastProcessedSeq (st : DaemonState) (peer folder : String) : Option Nat :=
  st.processed_manifests.foldl
    (fun acc kv =>
      if kv.2.source_peer_id = peer && kv.2.folder_id = folder then
        match acc with
        | none => some kv.2.sequence_number
        | some m => some (max m kv.2.sequence_number)
      else acc)
    none

/-- BackupDaemon::validate_sequence_number only compares and logs; it
returns Ok on every input (a gap produces a warning, a stale sequence
nothing at all). -/
def validate_sequence_number (st : DaemonState) (m : ManifestFile) :
    Except String Unit :=
  match lastProcessedSeq st m.source_peer_id m.folder_id with
  | none => Except.ok ()
  | some _ => Except.ok ()

/-- Fuel-driven worker for chunksOf: each round emits one chunk of `step`
elements and drops them; the fuel (the list length at the top call) bounds
the number of rounds so the recursion is structural and kernel-reducible. -/
def chunksOfAux {α : Type} : Nat → Nat → List α → List (List α)
  | _, _, [] => []
  | 0, _, _ :: _ => []
  | fuel + 1, step, x :: xs =>
      ((x :: xs).take step) :: chunksOfAux fuel step ((x :: xs).drop step)

/-- Rust slice::chunks(n): split into consecutive chunks of size n
(n = 0 panics in Rust; the embedding clamps to 1, callers use n ≥ 1). -/
def chunksOf {α : Type} (n : Nat) (l : List α) : List (List α) :=
  chunksOfAux l.length (max n 1) l

/-- One batch of BackupDaemon::download_manifest_files: files already in
local storage count as skipped, the rest produce a network-fetch action
whose outcome is decided by the environment. -/
def processChunk (env : DaemonEnv) (chunk : List ManifestFileEntry)
    (acc : DownloadResult) : DownloadResult × List DaemonAction :=
  chunk.foldl
    (fun (r : DownloadResult × List DaemonAction) file =>
      if file.cid ∈ env.localCids then
        ({ r.1 with skipped_existing := r.1.skipped_existing + 1 }, r.2)
      else if file.cid ∈ env.fetchFail then
        ({ r.1 with failed := r.1.failed + 1 },
         r.2 ++ [DaemonAction.fetchFileNetwork file.cid])
      else
        ({ r.1 with downloaded := r.1.downloaded + 1 },
         r.2 ++ [DaemonAction.fetchFileNetwork file.cid]))
    (acc, [])

/-- The per-batch progress update of download_manifest_files
(backup_daemon.rs 607-616): the record is looked up under the manifest's
embedded OPTIONAL self-CID field (`manifest.manifest_cid`), not under
the CID the daemon is processing, and only files_downloaded and
files_failed are assigned. -/
def updateProgress (st : DaemonState) (m : ManifestFile) (dl : DownloadResult) :
    DaemonState :=
  match m.manifest_cid with
  | none => st
  | some k =>
      let upd : InProgressManifest → InProgressManifest := fun p =>
        { p with
          files_downloaded := dl.downloaded + dl.skipped_existing,
          files_failed := dl.failed }
      { st with in_progress_manifests := aupdate st.in_progress_manifests k upd }

/-- One iteration of the batch loop in download_manifest_files: run the
batch, update the progress record, record the save_state persistence. -/
def downloadStep (env : DaemonEnv) (m : ManifestFile)
    (r : DaemonState × DownloadResult × List DaemonAction)
    (chunk : List ManifestFileEntry) :
    DaemonState × DownloadResult × List DaemonAction :=
  let step := processChunk env chunk r.2.1
  let st' := updateProgress r.1 m step.1
  (st', step.1, r.2.2 ++ step.2 ++ [DaemonAction.saveState])

/-- BackupDaemon::download_manifest_files (backup_daemon.rs 551-632):
process the manifest's files in chunks of max_concurrent_downloads;
after each batch update the progress record and persist the state. -/
def download_manifest_files (cfg : DaemonCfg) (env : DaemonEnv)
    (st : DaemonState) (m : ManifestFile) :
    DaemonState × DownloadResult × List DaemonAction :=
  (chunksOf cfg.max_concurrent_downloads m.files).foldl (downloadStep env m)
    (st, { downloaded := 0, failed := 0, skipped_existing := 0 }, [])

/-- BackupDaemon::enforce_deletions (backup_daemon.rs 646-711): for each
tombstone check local presence, and delete when present; the outcome of
the delete call is decided by the environment. -/
def enforce_deletions (env : DaemonEnv) (m : ManifestFile) :
    DeletionResult × List DaemonAction :=
  m.deleted_files.foldl
    (fun (r : DeletionResult × List DaemonAction) tomb =>
      if tomb.cid ∈ env.localCids then
        if tomb.cid ∈ env.deleteFail then
          ({ r.1 with failed := r.1.failed + 1 },
           r.2 ++ [DaemonAction.deleteFile tomb.cid])
        else
          ({ r.1 with deleted := r.1.deleted + 1 },
           r.2 ++ [DaemonAction.deleteFile tomb.cid])
      else
        ({ r.1 with not_found := r.1.not_found + 1 }, r.2))
    ({ deleted := 0, failed := 0, not_found := 0 }, [])

/-- BackupDaemon::finalize_manifest_processing (backup_daemon.rs 713-774):
remove the CID from in_progress, then on (Ok, Ok) insert a
ProcessedManifest and bump the stats, otherwise append a FailedManifest
with retry_count = 0. -/
def finalize_manifest_processing (st : DaemonState) (manifest_cid : String)
    (m : ManifestFile) (download_result : Except String DownloadResult)
    (deletion_result : Except String DeletionResult) (now : Nat) : DaemonState :=
  let st1 := { st with in_progress_manifests :=
                 aremove st.in_progress_manifests manifest_cid }
  match download_result, deletion_result with
  | Except.ok dl, Except.ok del =>
      { st1 with
        processed_manifests := ainsert st1.processed_manifests manifest_cid
          { manifest_cid := manifest_cid,
            source_peer_id := m.source_peer_id,
            sequence_number := m.sequence_number,
            folder_id := m.folder_id,
            processed_at := now,
            file_count := dl.downloaded + dl.skipped_existing,
            total_size_bytes := m.stats.total_size_bytes,
            deleted_count := del.deleted },
        stats := { st1.stats with
          total_manifests_processed := st1.stats.total_manifests_processed + 1,
          total_files_downloaded := st1.stats.total_files_downloaded + dl.downloaded,
          total_files_deleted := st1.stats.total_files_deleted + del.deleted,
          last_activity_at := some now } }
  | Except.error e, _ =>
      { st1 with failed_manifests := st1.failed_manifests ++
          [{ manifest_cid := manifest_cid,
             source_peer_id := m.source_peer_id,
             failed_at := now, error_message := e, retry_count := 0 }] }
  | _, Except.error e =>
      { st1 with failed_manifests := st1.failed_manifests ++
          [{ manifest_cid := manifest_cid,
             source_peer_id := m.source_peer_id,
             failed_at := now, error_message := e, retry_count := 0 }] }

/-- BackupDaemon::process_manifest (backup_daemon.rs 441-517) on its
decode-success path (the decoded ManifestFile is given): fetch the
manifest bytes (from the network when not local), validate the sequence
number (always Ok), insert the in-progress record, persist, download
the files, enforce the deletions when configured, and finalize.  In the
pure model the per-batch save_state always succeeds, so both phase
results arrive at finalize as Ok and the manifest is marked processed. -/
def process_manifest (cfg : DaemonCfg) (env : DaemonEnv) (st : DaemonState)
    (manifest_cid : String) (m : ManifestFile) :
    DaemonState × List DaemonAction :=
  let fetchActs :=
    if manifest_cid ∈ env.localCids then
      [DaemonAction.fetchManifestLocal manifest_cid]
    else
      [DaemonAction.fetchManifestLocal manifest_cid,
       DaemonAction.fetchManifestNetwork manifest_cid]
  let rec0 : InProgressManifest :=
    { manifest_cid := manifest_cid,
      source_peer_id := m.source_peer_id,
      sequence_number := m.sequence_number,
      started_at := env.now,
      total_files := m.files.length,
      files_downloaded := 0,
      files_failed := 0,
      current_status := "Downloading files" }
  let ip1 := ainsert st.in_progress_manifests manifest_cid rec0
  let st1 := { st with in_progress_manifests := ip1 }
  let dl := download_manifest_files cfg env st1 m
  let del :=
    if cfg.auto_delete_tombstones then enforce_deletions env m
    else ({ deleted := 0, failed := 0, not_found := 0 }, [])
  let st3 := finalize_manifest_processing dl.1 manifest_cid m
    (Except.ok dl.2.1) (Except.ok del.1) env.now
  (st3, fetchActs ++ [DaemonAction.saveState] ++ dl.2.2 ++ del.2 ++
        [DaemonAction.saveState])

/- ========== Daemon partition-transition relation (for reachability) ==

   A sound under-approximation of the transitions backup_daemon.rs can
   perform on the three partitions of DaemonState: every step below is a
   transition the code can take, so reachability in this relation
   witnesses states the program genuinely reaches; the relation is used
   only for that purpose.  It does NOT cover all code transitions:
   run_cycle evaluates filter_unprocessed once per cycle over a batch
   that can contain the same CID twice (source peers are an undeduped
   Vec, so two entries for the same host make discover_manifests yield
   duplicate records), in which case the code enters processing with
   filter information that is stale by insertion time.  `start_filtered`
   covers the entries where the filter information is still current at
   insertion (for example single-item cycles); its guards consult
   processed_manifests and in_progress_manifests but NOT the failed
   list, exactly as filter_unprocessed does.  `finish_ok` and
   `finish_fail` are the two outcomes of finalize_manifest_processing.
   The retry-path steps of retry_failed_manifests re-enter processing
   without any filter; they are gated by `allowRetry`. -/

inductive DaemonStep (maxRetries : Nat) (allowRetry : Bool) :
    DaemonState → DaemonState → Prop
  | start_filtered (s : DaemonState) (cid : String) (r : InProgressManifest) :
      alookup s.processed_manifests cid = none →
      alookup s.in_progress_manifests cid = none →
      r.manifest_cid = cid →
      DaemonStep maxRetries allowRetry s
        { s with in_progress_manifests := ainsert s.in_progress_manifests cid r }
  | finish_ok (s : DaemonState) (cid : String) (p : ProcessedManifest) :
      (alookup s.in_progress_manifests cid).isSome = true →
      p.manifest_cid = cid →
      DaemonStep maxRetries allowRetry s
        { s with
          in_progress_manifests := aremove s.in_progress_manifests cid,
          processed_manifests := ainsert s.processed_manifests cid p }
  | finish_fail (s : DaemonState) (cid : String) (f : FailedManifest) :
      (alookup s.in_progress_manifests cid).isSome = true →
      f.manifest_cid = cid →
      f.retry_count = 0 →
      DaemonStep maxRetries allowRetry s
        { s with
          in_progress_manifests := aremove s.in_progress_manifests cid,
          failed_manifests := s.failed_manifests ++ [f] }
  | retry_start (s : DaemonState) (f : FailedManifest) (r : InProgressManifest) :
      allowRetry = true →
      f ∈ s.failed_manifests →
      f.retry_count < maxRetries →
      r.manifest_cid = f.manifest_cid →
      DaemonStep maxRetries allowRetry s
        { s with
          failed_manifests := s.failed_manifests.erase f,
          in_progress_manifests :=
            ainsert s.in_progress_manifests f.manifest_cid r }
  | retry_requeue (s : DaemonState) (f : FailedManifest) :
      allowRetry = true →
      DaemonStep maxRetries allowRetry s
        { s with failed_manifests := s.failed_manifests ++ [f] }

/-- States of the backup daemon reachable from the fresh default state by
the partition mutations above. -/
inductive DaemonReach (maxRetries : Nat) (allowRetry : Bool) : DaemonState → Prop
  | init : DaemonReach maxRetries allowRetry initialDaemonState
  | step {s s' : DaemonState} :
      DaemonReach maxRetries allowRetry s →
      DaemonStep maxRetries allowRetry s s' →
      DaemonReach maxRetries allowRetry s'

deriving instance DecidableEq for Except

/- ===================== Concrete instances =====================
   Concrete states and inputs used to evaluate the embedded operations
   (small literal scenarios in the style of the repository's own data). -/

/-- SyncService::new: every collection empty, threshold 10. -/
def syncServiceNew : SyncService :=
  { folders := [], upload_queue := [], recent_uploads := [], is_syncing := false,
    synced_files := [], file_cid_mappings := [], deleted_files := [],
    changes_since_manifest := [], manifest_update_threshold := 10 }

def c7_q : List PendingFile :=
  (queue_file (queue_file syncServiceNew "/w/a.txt" "F" 1) "/w/b.txt" "F" 2).upload_queue

def c7w_q : List PendingFile :=
  [{ path := "/w/a.txt", folder_id := "F", added_at := 1 },
   { path := "/w/b.txt", folder_id := "F", added_at := 2 }]

def c7w_f : PendingFile := { path := "/w/b.txt", folder_id := "F", added_at := 2 }

def c7w_g : PendingFile := { path := "/w/a.txt", folder_id := "F", added_at := 1 }

def c8_s0 : SyncService :=
  { syncServiceNew with
    file_cid_mappings :=
      [("F", [{ path := "/w/p.txt", cid := "c1", size_bytes := 5,
                mime_type := some "text/plain", uploaded_at := 1 }])],
    changes_since_manifest := [("F", 0)] }

def c8_s1 : SyncService :=
  store_cid_mapping c8_s0 "F" "/w/p.txt" "c2" 6 (some "text/plain") 2

def c3_folder : WatchedFolder :=
  { id := "F", path := "/w", enabled := true, file_count := 1,
    total_size_bytes := 5, last_synced := none, status := FolderStatus.idle,
    manifest_cid := none, manifest_sequence := 5, manifest_updated_at := none,
    backup_synced_at := none, backup_ack_received := false, pending_retry := false }

def c3_s0 : SyncService :=
  { syncServiceNew with
    folders := [("F", c3_folder)],
    file_cid_mappings :=
      [("F", [{ path := "/w/b.txt", cid := "Cb", size_bytes := 5,
                mime_type := none, uploaded_at := 1 }])],
    deleted_files := [("F", [{ path := "a.txt", cid := "Ca", deleted_at := 2 }])],
    changes_since_manifest := [("F", 3)] }

def c3_run : SyncService × Except String String :=
  upload_manifest c3_s0 "F" (Except.ok "PEERID") true (Except.error "upload failed") 9

def c4_run : SyncService × Except String String :=
  upload_manifest c3_s0 "F" (Except.ok "PEERID") true (Except.ok "MCID") 9

def c5_newer : ManifestInfo :=
  { folder_id := "F", folder_path := "/w", manifest_cid := "CIDv5",
    sequence_number := 5, updated_at := "t5", file_count := 2,
    total_size_bytes := 100 }

def c5_older : ManifestInfo :=
  { folder_id := "F", folder_path := "/w", manifest_cid := "CIDv3",
    sequence_number := 3, updated_at := "t3", file_count := 1,
    total_size_bytes := 50 }

def c5_reg : ManifestRegistry :=
  { manifests := [("F", c5_newer)], peer_id := some "PEERID" }

def c9_path : String := "/data/archivist/backup-daemon-state.json"

def c1_cfg : DaemonCfg :=
  { max_concurrent_downloads := 2, max_retries := 3,
    auto_delete_tombstones := true }

def c1_env : DaemonEnv :=
  { localCids := ["cidT"], fetchFail := [], deleteFail := [], now := 50 }

def c1_prev : ProcessedManifest :=
  { manifest_cid := "OLDCID", source_peer_id := "P", sequence_number := 5,
    folder_id := "F", processed_at := 10, file_count := 2,
    total_size_bytes := 100, deleted_count := 0 }

def c1_st0 : DaemonState :=
  { initialDaemonState with processed_manifests := [("OLDCID", c1_prev)] }

def c1_m : ManifestFile :=
  { version := "1.0", folder_id := "F", folder_path := "/w",
    source_peer_id := "P", sequence_number := 3, last_updated := 20,
    manifest_cid := none,
    files := [{ path := "a.txt", cid := "cidA", size_bytes := 5,
                mime_type := none, uploaded_at := 1 }],
    deleted_files := [{ path := "d.txt", cid := "cidT", deleted_at := 2 }],
    stats := { total_files := 1, total_size_bytes := 5 } }

def c1_run : DaemonState × List DaemonAction :=
  process_manifest c1_cfg c1_env c1_st0 "MCID" c1_m

def c6_rec0 : InProgressManifest :=
  { manifest_cid := "MCID", source_peer_id := "P", sequence_number := 3,
    started_at := 0, total_files := 1, files_downloaded := 0,
    files_failed := 0, current_status := "Downloading files" }

def c6_st0 : DaemonState :=
  { initialDaemonState with in_progress_manifests := [("MCID", c6_rec0)] }

def c6_env : DaemonEnv :=
  { localCids := [], fetchFail := [], deleteFail := [], now := 50 }

def c6_m : ManifestFile :=
  { version := "1.0", folder_id := "F", folder_path := "/w",
    source_peer_id := "P", sequence_number := 3, last_updated := 20,
    manifest_cid := none,
    files := [{ path := "a.txt", cid := "cidA", size_bytes := 5,
                mime_type := none, uploaded_at := 1 }],
    deleted_files := [],
    stats := { total_files := 1, total_size_bytes := 5 } }

def c6_run : DaemonState × DownloadResult × List DaemonAction :=
  download_manifest_files c1_cfg c6_env c6_st0 c6_m

def c2_r1 : InProgressManifest :=
  { manifest_cid := "M", source_peer_id := "P", sequence_number := 3,
    started_at := 0, total_files := 1, files_downloaded := 0,
    files_failed := 0, current_status := "Downloading files" }

def c2_f1 : FailedManifest :=
  { manifest_cid := "M", source_peer_id := "P", failed_at := 1,
    error_message := "download error", retry_count := 0 }

def c2_s1 : DaemonState :=
  { initialDaemonState with
    in_progress_manifests := ainsert initialDaemonState.in_progress_manifests "M" c2_r1 }

def c2_s2 : DaemonState :=
  { c2_s1 with
    in_progress_manifests := aremove c2_s1.in_progress_manifests "M",
    failed_manifests := c2_s1.failed_manifests ++ [c2_f1] }

def c2_s3 : DaemonState :=
  { c2_s2 with
    in_progress_manifests := ainsert c2_s2.in_progress_manifests "M" c2_r1 }

def c2d_env : DaemonEnv :=
  { localCids := [], fetchFail := [], deleteFail := [], now := 7 }

def c2d_m : ManifestFile :=
  { version := "1.0", folder_id := "F", folder_path := "/w",
    source_peer_id := "P", sequence_number := 3, last_updated := 20,
    manifest_cid := none,
    files := [{ path := "a.txt", cid := "cidA", size_bytes := 5,
                mime_type := none, uploaded_at := 1 }],
    deleted_files := [],
    stats := { total_files := 1, total_size_bytes := 5 } }

def c2d_d : DiscoveredManifest :=
  { cid := "M", folder_id := "F", sequence_number := 3,
    source_peer_id := "P", source_host := "h1", multiaddr := none }

def c2d_st1 : DaemonState :=
  (process_manifest c1_cfg c2d_env initialDaemonState "M" c2d_m).1

def c2d_mid : DaemonState :=
  { c2d_st1 with
    in_progress_manifests := ainsert c2d_st1.in_progress_manifests "M"
      { manifest_cid := "M", source_peer_id := "P", sequence_number := 3,
        started_at := 7, total_files := 1, files_downloaded := 0,
        files_failed := 0, current_status := "Downloading files" } }

/- ===================== Lemmas =====================
   Facts about the association-list operations and the daemon batch
   fold, shared by the claim theorems below. -/

theorem alookup_ainsert_self {α : Type} (l : List (String × α)) (k : String) (v : α) :
    alookup (ainsert l k v) k = some v := by
  induction l with
  | nil => simp [ainsert, alookup]
  | cons h t ih =>
      by_cases hk : h.1 = k
      · simp [ainsert, hk, alookup]
      · simp [ainsert, hk, alookup, ih]

theorem alookup_ainsert_ne {α : Type} (l : List (String × α)) (k k' : String) (v : α)
    (hne : k ≠ k') : alookup (ainsert l k v) k' = alookup l k' := by
  induction l with
  | nil => simp [ainsert, alookup, hne]
  | cons h t ih =>
      by_cases hk : h.1 = k
      · simp [ainsert, hk, alookup, hne]
      · simp only [ainsert, if_neg hk]
        by_cases hk' : h.1 = k'
        · simp [alookup, hk']
        · simp [alookup, hk', ih]

theorem alookup_aremove_self {α : Type} (l : List (String × α)) (k : String) :
    alookup (aremove l k) k = none := by
  induction l with
  | nil => simp [aremove, alookup]
  | cons h t ih =>
      by_cases hk : h.1 = k
      · simpa [aremove, hk] using ih
      · have hb : (h.1 != k) = true := by simp [bne, hk]
        simp [aremove, hb, alookup, hk] at ih ⊢
        exact ih

theorem alookup_aremove_ne {α : Type} (l : List (String × α)) (k k' : String)
    (hne : k ≠ k') : alookup (aremove l k) k' = alookup l k' := by
  induction l with
  | nil => simp [aremove, alookup]
  | cons h t ih =>
      by_cases hk : h.1 = k
      · have hb : (h.1 != k) = false := by simp [bne, hk]
        have h1 : aremove (h :: t) k = aremove t k := by
          simp [aremove, List.filter, hb]
        have hne' : ¬ h.1 = k' := by rw [hk]; exact hne
        have h2 : alookup (h :: t) k' = alookup t k' := by
          simp [alookup, hne']
        rw [h1, ih, h2]
      · have hb : (h.1 != k) = true := by simp [bne, hk]
        have h1 : aremove (h :: t) k = h :: aremove t k := by
          simp [aremove, List.filter, hb]
        rw [h1]
        by_cases hk' : h.1 = k'
        · simp [alookup, hk']
        · simp [alookup, hk', ih]

theorem downloadFold_snd_eq (env : DaemonEnv) (m : ManifestFile)
    (chunks : List (List ManifestFileEntry)) :
    ∀ (st st' : DaemonState) (dl : DownloadResult) (tr : List DaemonAction),
      (chunks.foldl (downloadStep env m) (st, dl, tr)).2
        = (chunks.foldl (downloadStep env m) (st', dl, tr)).2 := by
  induction chunks with
  | nil => intro st st' dl tr; rfl
  | cons c cs ih =>
      intro st st' dl tr
      simp only [List.foldl_cons, downloadStep]
      exact ih _ _ _ _

theorem download_manifest_files_snd_eq (cfg : DaemonCfg) (env : DaemonEnv)
    (m : ManifestFile) (st st' : DaemonState) :
    (download_manifest_files cfg env st m).2
      = (download_manifest_files cfg env st' m).2 := by
  unfold download_manifest_files
  exact downloadFold_snd_eq env m _ st st' _ _

/- ===================== Claim theorems ===================== -/

/-- C5 counterexample: the registry holds the folder-F descriptor with
sequence 5; register_manifest with a sequence-3 descriptor for the same
folder overwrites it, so the stored descriptor is NOT left unchanged and
an older descriptor does overwrite a newer one. -/
theorem c5_counterexample :
    c5_older.sequence_number < c5_newer.sequence_number ∧
    alookup c5_reg.manifests "F" = some c5_newer ∧
    alookup (register_manifest c5_reg c5_older).manifests "F" = some c5_older := by
  exact ⟨by decide, by decide, by decide⟩

/-- C5 (amended): ManifestRegistry::register_manifest performs an
unconditional HashMap::insert keyed by folder id: after every call the
stored descriptor for the new descriptor's folder is the new descriptor,
with no sequence-number comparison, so the LAST CALL wins regardless of
sequence and an older descriptor can overwrite a newer one. -/
theorem c5_register_unconditional (r : ManifestRegistry) (info : ManifestInfo) :
    alookup (register_manifest r info).manifests info.folder_id = some info := by
  simpa [register_manifest] using
    alookup_ainsert_self r.manifests info.folder_id info

/-- C10: the progress-percent computation of upload_file_with_progress is
total: the division by the total size is guarded by `total > 0` and the
percent is 0 when the total size is 0; the throttle computation divides
only by the constant 100.  No division by zero occurs at any progress
update. -/
theorem c10_progress_total (sent total percent last : Nat) :
    (progressPercent sent total).isSome = true ∧
    progressPercent sent 0 = some 0 ∧
    (shouldReport percent last sent total).isSome = true := by
  refine ⟨?_, by simp [progressPercent], ?_⟩
  · by_cases h : total > 0
    · have hz : total ≠ 0 := Nat.pos_iff_ne_zero.mp h
      simp [progressPercent, h, checkedDiv, hz]
    · simp [progressPercent, h]
  · simp [shouldReport, checkedDiv]

/-- C9 counterexample: a concrete save_state invocation produces no rename
operation at all and writes the serialized state directly to the state
file path, refuting the write-to-temp-then-rename claim. -/
theorem c9_counterexample :
    ((save_state_ops initialDaemonState c9_path).all
        (fun op => !(FsOp.isRenameOp op))) = true ∧
    FsOp.writeFile c9_path (serializeDaemonState initialDaemonState)
      ∈ save_state_ops initialDaemonState c9_path := by
  exact ⟨by decide, by decide⟩

/-- C9 (amended): every persistence of the daemon state file ensures the
parent directory and then writes the full serialized JSON directly to the
state file path with a single fs::write; no temporary path and no rename
is involved (so a crash mid-write CAN leave a partially written file). -/
theorem c9_save_state_direct_write (st : DaemonState) (p : String) :
    ((save_state_ops st p).all (fun op => !(FsOp.isRenameOp op))) = true ∧
    FsOp.writeFile p (serializeDaemonState st) ∈ save_state_ops st p := by
  constructor
  · cases h : parentDir p <;>
      simp [save_state_ops, h, FsOp.isRenameOp]
  · cases h : parentDir p <;>
      simp [save_state_ops, h]

/-- C7 counterexample: two files enqueued through queue_file at times 1
then 2; the dequeue step (Vec::pop) removes the entry with enqueue time
2, the LATEST, while an entry with the earlier time 1 is still queued -
so the processor does not remove the earliest-enqueued entry. -/
theorem c7_counterexample :
    c7_q.map (fun p => p.added_at) = [1, 2] ∧
    (queuePop c7_q).map (fun x => x.1.added_at) = some 2 ∧
    c7_q.any (fun p => p.added_at < 2) = true := by
  exact ⟨by decide, by decide, by decide⟩

/-- C7 (amended): the upload queue is LIFO, not FIFO: queue_file pushes to
the back of the Vec and the processor's Vec::pop removes the back entry,
so on a queue whose enqueue times increase along the Vec (as produced by
successive pushes) the dequeued file is the one with the LATEST enqueue
time among those queued. -/
theorem c7_queue_pop_lifo (q : List PendingFile) (f : PendingFile)
    (r : List PendingFile)
    (hsorted : List.Pairwise (fun a b => a.added_at ≤ b.added_at) q)
    (hpop : queuePop q = some (f, r)) :
    ∀ g ∈ q, g.added_at ≤ f.added_at := by
  have hlast : q.getLast? = some f := by
    cases hq : q.getLast? with
    | none =>
        rw [queuePop, hq] at hpop
        exact absurd hpop (by simp)
    | some x =>
        rw [queuePop, hq] at hpop
        have hx : x = f := congrArg Prod.fst (Option.some.inj hpop)
        exact congrArg some hx
  clear hpop
  induction q with
  | nil => simp at hlast
  | cons a t ih =>
      intro g hg
      cases t with
      | nil =>
          have ha : a = f := by
            simpa [List.getLast?] using hlast
          have hga : g = a := by simpa using hg
          rw [hga, ha]
      | cons b u =>
          have hlast' : (b :: u).getLast? = some f := by
            simpa [List.getLast?_cons_cons] using hlast
          have hs := List.pairwise_cons.mp hsorted
          rcases List.mem_cons.mp hg with hga | hgt
          · have hfmem : f ∈ b :: u := by
              have : ∃ h : b :: u ≠ [], (b :: u).getLast h = f := by
                rcases List.getLast?_eq_some_iff.mp hlast' with ⟨h, hh⟩
                exact ⟨by simp, by simp [hh]⟩
              rcases this with ⟨hne, hgl⟩
              rw [← hgl]
              exact List.getLast_mem hne
            rw [hga]
            exact hs.1 f hfmem
          · exact ih hs.2 hlast' g hgt

/-- C7 witness: the LIFO theorem applied to the concrete sorted queue
with enqueue times 1 and 2: the earlier entry is bounded by the popped
entry's enqueue time. -/
theorem c7_witness : c7w_g.added_at ≤ c7w_f.added_at :=
  c7_queue_pop_lifo c7w_q c7w_f [c7w_g] (by decide) (by decide) c7w_g (by decide)

/-- C8 counterexample: the folder's CID mapping already holds an entry for
the path with cid c1; after a second successful upload of the same path
(store_cid_mapping with the new cid c2) the mapping holds TWO entries for
the path and the old entry is still present, so the old entry is not
replaced and the mapping does not contain exactly one entry for the path. -/
theorem c8_counterexample :
    countPathEntries ((alookup c8_s0.file_cid_mappings "F").getD []) "/w/p.txt" = 1 ∧
    countPathEntries ((alookup c8_s1.file_cid_mappings "F").getD []) "/w/p.txt" = 2 ∧
    ((alookup c8_s1.file_cid_mappings "F").getD []).any (fun m => m.cid = "c1") = true ∧
    alookup c8_s1.changes_since_manifest "F" = some 1 := by
  exact ⟨by decide, by decide, by decide, by decide⟩

/-- C8 (amended): when a file whose path already has an entry in its
folder's CID mapping is successfully uploaded again, store_cid_mapping
APPENDS a second entry for that path - the prior entry is retained, not
replaced, so the entry count for the path grows by exactly one - and the
folder's change-counter is incremented exactly once. -/
theorem c8_store_cid_mapping_appends (s : SyncService)
    (folder_id path cid : String) (size_bytes : Nat)
    (mime_type : Option String) (now : Nat) :
    countPathEntries
        ((alookup (store_cid_mapping s folder_id path cid size_bytes
            mime_type now).file_cid_mappings folder_id).getD []) path
      = countPathEntries ((alookup s.file_cid_mappings folder_id).getD []) path
          + 1 ∧
    alookup (store_cid_mapping s folder_id path cid size_bytes
        mime_type now).changes_since_manifest folder_id
      = some ((alookup s.changes_since_manifest folder_id).getD 0 + 1) := by
  constructor
  · simp only [store_cid_mapping, alookup_ainsert_self]
    simp [countPathEntries, List.filter_append]
  · simp only [store_cid_mapping]
    exact alookup_ainsert_self _ _ _

/-- C3 counterexample: a folder with sequence 5, one tombstone and change
counter 3; upload_manifest fails at the upload step, yet afterwards the
sequence number is 6, the tombstone list is empty and the change counter
is 0 - the folder's sync bookkeeping is NOT left in its prior state
(only manifest_cid and pending_retry are unchanged). -/
theorem c3_counterexample :
    c3_folder.manifest_sequence = 5 ∧
    alookup c3_s0.deleted_files "F"
      = some [{ path := "a.txt", cid := "Ca", deleted_at := 2 }] ∧
    alookup c3_s0.changes_since_manifest "F" = some 3 ∧
    c3_run.2 = Except.error "upload failed" ∧
    (alookup c3_run.1.folders "F").map (fun f => f.manifest_sequence) = some 6 ∧
    alookup c3_run.1.deleted_files "F" = some [] ∧
    alookup c3_run.1.changes_since_manifest "F" = some 0 := by
  refine ⟨by decide, by decide, by decide, by decide, by decide, by decide,
    by decide⟩

/-- C3 (amended): when upload_manifest returns an error the folder's
manifest_cid and pending_retry flag still equal their prior values, but
the other bookkeeping may already have been mutated: the sequence number
is incremented as soon as the folder and the peer id were obtained, and
the tombstone list and change-counter are cleared once the manifest file
was written, even if the subsequent upload fails. -/
theorem c3_upload_error_partial_state (s : SyncService) (folder_id : String)
    (peerIdResult : Except String String) (writeOk : Bool)
    (uploadResult : Except String String) (now : Nat) (e : String)
    (herr : (upload_manifest s folder_id peerIdResult writeOk uploadResult
      now).2 = Except.error e) :
    ((alookup (upload_manifest s folder_id peerIdResult writeOk uploadResult
        now).1.folders folder_id).map
          (fun f => (f.manifest_cid, f.pending_retry))
      = (alookup s.folders folder_id).map
          (fun f => (f.manifest_cid, f.pending_retry))) := by
  cases hf : alookup s.folders folder_id with
  | none => simp [upload_manifest, generate_manifest, hf]
  | some folder0 =>
      cases peerIdResult with
      | error pe => simp [upload_manifest, generate_manifest, hf]
      | ok peer =>
          cases writeOk with
          | false =>
              simp [upload_manifest, generate_manifest, hf,
                alookup_ainsert_self]
          | true =>
              cases uploadResult with
              | error ue =>
                  simp [upload_manifest, generate_manifest, hf,
                    alookup_ainsert_self]
              | ok cid =>
                  simp [upload_manifest, generate_manifest, hf,
                    alookup_ainsert_self] at herr

/-- C3 witness: the amended theorem applied to the concrete failing
upload: the hypothesis holds by evaluation and manifest_cid and
pending_retry are preserved. -/
theorem c3_witness :
    ((alookup (upload_manifest c3_s0 "F" (Except.ok "PEERID") true
        (Except.error "upload failed") 9).1.folders "F").map
          (fun f => (f.manifest_cid, f.pending_retry))
      = (alookup c3_s0.folders "F").map
          (fun f => (f.manifest_cid, f.pending_retry))) :=
  c3_upload_error_partial_state c3_s0 "F" (Except.ok "PEERID") true
    (Except.error "upload failed") 9 "upload failed" (by decide)

/-- C4: whenever upload_manifest succeeds, the folder's tombstone list is
empty, its change-counter is zero, its manifest_cid is the returned CID,
pending_retry is true, and the manifest sequence number is exactly one
more than before the call (hence successive successes are strictly
increasing with no gaps). -/
theorem c4_upload_manifest_success (s : SyncService) (folder_id : String)
    (peerIdResult : Except String String) (writeOk : Bool)
    (uploadResult : Except String String) (now : Nat)
    (folder0 : WatchedFolder) (s' : SyncService) (cid : String)
    (hf : alookup s.folders folder_id = some folder0)
    (hrun : upload_manifest s folder_id peerIdResult writeOk uploadResult now
      = (s', Except.ok cid)) :
    (alookup s'.folders folder_id).map (fun f => f.manifest_sequence)
        = some (folder0.manifest_sequence + 1) ∧
    (alookup s'.folders folder_id).map (fun f => f.manifest_cid)
        = some (some cid) ∧
    (alookup s'.folders folder_id).map (fun f => f.pending_retry)
        = some true ∧
    alookup s'.deleted_files folder_id = some [] ∧
    alookup s'.changes_since_manifest folder_id = some 0 := by
  cases peerIdResult with
  | error pe =>
      simp [upload_manifest, generate_manifest, hf] at hrun
  | ok peer =>
      cases writeOk with
      | false =>
          simp [upload_manifest, generate_manifest, hf] at hrun
      | true =>
          cases uploadResult with
          | error ue =>
              simp [upload_manifest, generate_manifest, hf] at hrun
          | ok cid2 =>
              simp [upload_manifest, generate_manifest, hf,
                alookup_ainsert_self] at hrun
              obtain ⟨hs', hcid⟩ := hrun
              subst hcid
              subst hs'
              refine ⟨?_, ?_, ?_, ?_, ?_⟩ <;>
                simp [alookup_ainsert_self]

/-- C4 witness: the success theorem applied to the concrete folder with
sequence 5; after the successful upload the folder has sequence 6,
manifest_cid MCID, pending_retry true, no tombstones and counter zero. -/
theorem c4_witness :
    (alookup c4_run.1.folders "F").map (fun f => f.manifest_sequence)
        = some (c3_folder.manifest_sequence + 1) ∧
    (alookup c4_run.1.folders "F").map (fun f => f.manifest_cid)
        = some (some "MCID") ∧
    (alookup c4_run.1.folders "F").map (fun f => f.pending_retry)
        = some true ∧
    alookup c4_run.1.deleted_files "F" = some [] ∧
    alookup c4_run.1.changes_since_manifest "F" = some 0 :=
  c4_upload_manifest_success c3_s0 "F" (Except.ok "PEERID") true
    (Except.ok "MCID") 9 c3_folder c4_run.1 "MCID" (by decide) (by decide)

/-- C1 counterexample: the processed map holds sequence 5 for (peer P,
folder F); a discovered manifest with sequence 3 for the same pair is
stale, yet process_manifest still issues a network fetch for its missing
file and a delete for its tombstone before marking it processed - the
manifest is NOT marked processed without downloading and without
enforcing deletions. -/
theorem c1_counterexample :
    lastProcessedSeq c1_st0 "P" "F" = some 5 ∧
    c1_m.sequence_number ≤ 5 ∧
    DaemonAction.fetchFileNetwork "cidA" ∈ c1_run.2 ∧
    DaemonAction.deleteFile "cidT" ∈ c1_run.2 ∧
    (alookup c1_run.1.processed_manifests "MCID").isSome = true := by
  refine ⟨by decide, by decide, by decide, by decide, by decide⟩

/-- C1 (amended): a stale manifest (sequence ≤ the highest processed for
its peer and folder) receives no special handling:
validate_sequence_number returns Ok on every input, the actions
process_manifest performs do not depend on the processed history at all,
and the manifest is marked processed only after the full download and
deletion phases - exactly as for a fresh manifest. -/
theorem c1_stale_manifest_fully_processed (cfg : DaemonCfg) (env : DaemonEnv)
    (st1 st2 : DaemonState) (cid : String) (m : ManifestFile) :
    validate_sequence_number st1 m = Except.ok () ∧
    (process_manifest cfg env st1 cid m).2
      = (process_manifest cfg env st2 cid m).2 ∧
    (alookup (process_manifest cfg env st1 cid m).1.processed_manifests
      cid).isSome = true := by
  refine ⟨?_, ?_, ?_⟩
  · unfold validate_sequence_number
    cases lastProcessedSeq st1 m.source_peer_id m.folder_id <;> rfl
  · simp only [process_manifest]
    congr 1
    congr 1
    congr 1
    exact congrArg Prod.snd (download_manifest_files_snd_eq cfg env m _ _)
  · simp only [process_manifest, finalize_manifest_processing]
    simp [alookup_ainsert_self]

/-- C6: the per-batch progress update of download_manifest_files looks up
the in-progress record under the manifest's embedded optional self-CID,
which is None in every manifest this system authors (generate_manifest
sets manifest_cid: None), so with the record stored under the processed
CID a completed batch leaves files_downloaded, files_failed and
current_status untouched even though one file was downloaded; only the
state persistence happens.  Evaluated at the failing input. -/
theorem c6_progress_record_not_updated :
    c6_m.manifest_cid = none ∧
    c6_run.2.1.downloaded = 1 ∧
    c6_run.2.1.failed = 0 ∧
    alookup c6_run.1.in_progress_manifests "MCID" = some c6_rec0 ∧
    c6_rec0.files_downloaded = 0 ∧
    c6_rec0.current_status = "Downloading files" ∧
    DaemonAction.saveState ∈ c6_run.2.2 := by
  refine ⟨by decide, by decide, by decide, by decide, by decide, by decide,
    by decide⟩

/-- C2 counterexample: a reachable daemon state in which the CID M is
simultaneously in the in-progress map and in the failed list: M enters
processing, fails (finalize moves it to failed with retry_count 0), is
rediscovered in the next cycle, passes filter_unprocessed (which does not
consult the failed list) and re-enters in_progress while its failed entry
remains. -/
theorem c2_counterexample :
    DaemonReach 3 true c2_s3 ∧
    (alookup c2_s3.in_progress_manifests "M").isSome = true ∧
    c2_s3.failed_manifests.any (fun f => f.manifest_cid = "M") = true := by
  refine ⟨?_, by decide, by decide⟩
  have h1 : DaemonStep 3 true initialDaemonState c2_s1 :=
    DaemonStep.start_filtered initialDaemonState "M" c2_r1
      (by decide) (by decide) (by decide)
  have h2 : DaemonStep 3 true c2_s1 c2_s2 :=
    DaemonStep.finish_fail c2_s1 "M" c2_f1 (by decide) (by decide) (by decide)
  have h3 : DaemonStep 3 true c2_s2 c2_s3 :=
    DaemonStep.start_filtered c2_s2 "M" c2_r1
      (by decide) (by decide) (by decide)
  exact DaemonReach.step (DaemonReach.step (DaemonReach.step
    DaemonReach.init h1) h2) h3

/-- C2 (amended): disjointness of the three partitions is enforced only
pointwise, never as a state invariant: (1) filter_unprocessed drops
every CID already in processed_manifests or in_progress_manifests, so a
CID enters a cycle's work list only if, at filter time, it is in neither
of those two (the failed list is not consulted at all); (2)
finalize_manifest_processing removes the CID from in_progress before
inserting it into processed or failed, so immediately after its own
finalization a CID is not in in_progress.  Nothing stronger holds: the
failed list can overlap both other partitions (counterexample), and even
processed and in_progress overlap within one cycle when the same CID is
discovered twice (source peers are an undeduped Vec), because the filter
runs once per cycle - conjunct (3) exhibits that overlap state: after
the first duplicate is fully processed, the second duplicate's
in-progress insertion puts the CID in processed and in_progress
simultaneously. -/
theorem c2_disjointness_pointwise :
    (∀ (st : DaemonState) (ms : List DiscoveredManifest)
        (m : DiscoveredManifest),
        m ∈ filter_unprocessed st ms →
          alookup st.processed_manifests m.cid = none ∧
          alookup st.in_progress_manifests m.cid = none) ∧
    (∀ (st : DaemonState) (cid : String) (m : ManifestFile)
        (dl : Except String DownloadResult)
        (del : Except String DeletionResult) (now : Nat),
        alookup (finalize_manifest_processing st cid m dl del
          now).in_progress_manifests cid = none) ∧
    (filter_unprocessed initialDaemonState [c2d_d, c2d_d] = [c2d_d, c2d_d] ∧
     (alookup c2d_mid.processed_manifests "M").isSome = true ∧
     (alookup c2d_mid.in_progress_manifests "M").isSome = true) := by
  refine ⟨?_, ?_, by decide, by decide, by decide⟩
  · intro st ms m hm
    unfold filter_unprocessed at hm
    have h2 := List.mem_filter.mp hm
    have h1 := List.mem_filter.mp h2.1
    constructor
    · exact Option.isNone_iff_eq_none.mp (by simpa using h1.2)
    · exact Option.isNone_iff_eq_none.mp (by simpa using h2.2)
  · intro st cid m dl del now
    cases dl with
    | ok d =>
        cases del with
        | ok e => simp [finalize_manifest_processing, alookup_aremove_self]
        | error e => simp [finalize_manifest_processing, alookup_aremove_self]
    | error e =>
        cases del with
        | ok e2 => simp [finalize_manifest_processing, alookup_aremove_self]
        | error e2 => simp [finalize_manifest_processing, alookup_aremove_self]

/-- C2 witness: the pointwise theorem applied concretely: the duplicate
CID M passes the filter on the fresh state, so at filter time it is in
neither processed nor in_progress, and a concrete finalization leaves
its CID out of in_progress. -/
theorem c2_witness :
    (alookup initialDaemonState.processed_manifests c2d_d.cid = none ∧
     alookup initialDaemonState.in_progress_manifests c2d_d.cid = none) ∧
    alookup (finalize_manifest_processing initialDaemonState "W" c2d_m
      (Except.ok { downloaded := 1, failed := 0, skipped_existing := 0 })
      (Except.ok { deleted := 0, failed := 0, not_found := 0 })
      9).in_progress_manifests "W" = none :=
  ⟨c2_disjointness_pointwise.1 initialDaemonState [c2d_d, c2d_d] c2d_d
    (by decide),
   c2_disjointness_pointwise.2.1 initialDaemonState "W" c2d_m
    (Except.ok { downloaded := 1, failed := 0, skipped_existing := 0 })
    (Except.ok { deleted := 0, failed := 0, not_found := 0 }) 9⟩
